import Mathlib

/-!
Verification development for the privilege reconciliation engine of a
Terraform provider for the Exasol database.

The Go sources are shallowly embedded:
- Go strings are Lean `String`s; `strings.ToUpper` is modelled on the ASCII
  range (`goUpper`), which is the range all catalog identifiers live in.
- Terraform's tri-state attribute values (`types.Bool`, `types.String`,
  which may be null) are `Option Bool` / `Option String`; the framework's
  `ValueBool()` / `ValueString()` accessors, which fold null to a zero
  value, are `valueBool` / `valueStr`.
- SQL statements are a structured inductive type `SqlStmt` mirroring the
  exact `fmt.Sprintf` shapes the Go code produces; `renderStmt` produces
  the literal SQL text.
- The database is modelled by an execution oracle `ok : SqlStmt → Bool`
  (whether `ExecContext` succeeds) for mutating statements, by a
  `QueryResult` for the single-row catalog reads, and by a row list
  `List ObjPrivRow` for the object-privilege catalog view
  `EXA_DBA_OBJ_PRIVS`.
- Each resource operation returns an `OpResult` (the executed statements in
  order, the diagnostics added, and the state persisted, `none` when the
  operation returned before `State.Set`) or a `ReadOutcome`.
- Go map iteration order is unspecified; where the source iterates over a
  map built from a privilege list, the model iterates over the deduplicated
  uppercased list. All proved statements about those loops are
  order-independent (per-statement counts), so the fixed order is
  immaterial.
-/

namespace Exasol

/-- Models Go `strings.ToUpper` on the ASCII range: `Char.toUpper` maps
`'a'`-`'z'` to uppercase and leaves every other character unchanged. -/
def goUpper (s : String) : String := ⟨s.data.map Char.toUpper⟩

/-- Terraform `types.Bool.ValueBool()`: null folds to `false`. -/
def valueBool (o : Option Bool) : Bool := o.getD false

/-- Terraform `types.String.ValueString()`: null folds to `""`. -/
def valueStr (o : Option String) : String := o.getD ""

/-- Models Go `strings.Split(s, ".")`: split on `'.'`, keeping empty
segments; the empty string yields `[""]`. -/
def splitOnDot : List Char → List (List Char)
  | [] => [[]]
  | c :: rest =>
    let r := splitOnDot rest
    if c = '.' then [] :: r
    else
      match r with
      | [] => [[c]]
      | h :: t => (c :: h) :: t

/-- Models Go `strings.Trim(p, "\x22")`: drop every leading and trailing
double-quote character. -/
def trimQuotes (l : List Char) : List Char :=
  ((l.dropWhile (· = '"')).reverse.dropWhile (· = '"')).reverse

/-- Join chunks with `'.'` separators (Go `strings.Join(parts, ".")`). -/
def joinDots : List (List Char) → List Char
  | [] => []
  | [p] => p
  | p :: rest => p ++ '.' :: joinDots rest

/-- `qualify` from `helpers.go`: split the object name on `.`, quote each
segment independently (after stripping existing quotes), rejoin with `.`. -/
def qualify (obj : String) : String :=
  ⟨joinDots ((splitOnDot obj.data).map (fun p => '"' :: (trimQuotes p ++ ['"'])))⟩

/-- First character class of the identifier pattern `^[A-Z][A-Z0-9_]*$`. -/
def isIdentHeadChar (c : Char) : Bool := 'A' ≤ c && c ≤ 'Z'

/-- Tail character class of the identifier pattern `^[A-Z][A-Z0-9_]*$`. -/
def isIdentTailChar (c : Char) : Bool :=
  ('A' ≤ c && c ≤ 'Z') || ('0' ≤ c && c ≤ '9') || c = '_'

/-- Full anchored match of the regular expression `^[A-Z][A-Z0-9_]*$`. -/
def matchesIdentPattern (s : String) : Bool :=
  match s.data with
  | [] => false
  | c :: rest => isIdentHeadChar c && rest.all isIdentTailChar

/-- `isValidIdentifier` from `security.go`: reject the empty string, then
match the uppercased name against `^[A-Z][A-Z0-9_]*$`. -/
def isValidIdentifier (name : String) : Bool :=
  if name = "" then false
  else matchesIdentPattern (goUpper name)

/-- Boolean lexicographic comparison of character lists; models Go's
built-in string ordering used by `sort.Strings` (byte-wise, which on
code-point sequences coincides with this char-wise order). -/
def lexLe : List Char → List Char → Bool
  | [], _ => true
  | _ :: _, [] => false
  | a :: as, b :: bs => if a = b then lexLe as bs else decide (a < b)

/-- The string order induced by `lexLe`. -/
def strLe (a b : String) : Prop := lexLe a.data b.data = true

instance : DecidableRel strLe := fun a b => by unfold strLe; infer_instance

/-- Models Go `sort.Strings`. -/
def sortStrings (l : List String) : List String := List.insertionSort strLe l

lemma lexLe_total : ∀ as bs : List Char, lexLe as bs = true ∨ lexLe bs as = true
  | [], _ => Or.inl rfl
  | _ :: _, [] => Or.inr rfl
  | a :: as, b :: bs => by
    by_cases hab : a = b
    · subst hab
      simpa [lexLe] using lexLe_total as bs
    · rcases lt_or_gt_of_ne hab with h | h
      · exact Or.inl (by simp [lexLe, hab, h])
      · exact Or.inr (by simp [lexLe, Ne.symm hab, h])

lemma lexLe_trans :
    ∀ as bs cs : List Char, lexLe as bs = true → lexLe bs cs = true →
      lexLe as cs = true
  | [], _, _, _, _ => rfl
  | _ :: _, [], _, h, _ => by simp [lexLe] at h
  | _ :: _, _ :: _, [], _, h => by simp [lexLe] at h
  | a :: as, b :: bs, c :: cs, h₁, h₂ => by
    by_cases hab : a = b <;> by_cases hbc : b = c
    · subst hab; subst hbc
      simp only [lexLe, if_pos rfl] at h₁ h₂ ⊢
      exact lexLe_trans as bs cs h₁ h₂
    · subst hab
      simpa [lexLe, hbc] using h₂
    · subst hbc
      simpa [lexLe, hab] using h₁
    · simp only [lexLe, if_neg hab] at h₁
      simp only [lexLe, if_neg hbc] at h₂
      have hac : a < c := lt_trans (of_decide_eq_true h₁) (of_decide_eq_true h₂)
      simp [lexLe, ne_of_lt hac, hac]

lemma lexLe_antisymm :
    ∀ as bs : List Char, lexLe as bs = true → lexLe bs as = true → as = bs
  | [], [], _, _ => rfl
  | [], _ :: _, _, h => by simp [lexLe] at h
  | _ :: _, [], h, _ => by simp [lexLe] at h
  | a :: as, b :: bs, h₁, h₂ => by
    by_cases hab : a = b
    · subst hab
      simp only [lexLe, if_pos rfl] at h₁ h₂
      rw [lexLe_antisymm as bs h₁ h₂]
    · simp only [lexLe, if_neg hab] at h₁
      simp only [lexLe, if_neg (Ne.symm hab)] at h₂
      exact absurd (of_decide_eq_true h₂) (lt_asymm (of_decide_eq_true h₁))

instance : IsTotal String strLe := ⟨fun a b => lexLe_total a.data b.data⟩

instance : IsTrans String strLe := ⟨fun a b c => lexLe_trans a.data b.data c.data⟩

instance : IsAntisymm String strLe :=
  ⟨fun a b h₁ h₂ => by
    cases a; cases b
    exact congrArg String.mk (lexLe_antisymm _ _ h₁ h₂)⟩

/-- Sorting is invariant under permutation of the input. -/
lemma sortStrings_perm_invariant {l₁ l₂ : List String} (h : l₁.Perm l₂) :
    sortStrings l₁ = sortStrings l₂ :=
  List.eq_of_perm_of_sorted
    ((List.perm_insertionSort strLe l₁).trans
      (h.trans (List.perm_insertionSort strLe l₂).symm))
    (List.sorted_insertionSort strLe l₁)
    (List.sorted_insertionSort strLe l₂)

/-- Models Go `strings.Join(l, ",")`. -/
def joinComma (l : List String) : String := String.intercalate "," l

/-- Models Go `strings.EqualFold` on the ASCII range. -/
def equalFold (a b : String) : Bool := goUpper a == goUpper b

/-- The Go pattern `!o.IsNull() && o.ValueBool()` used to decide whether to
append `WITH ADMIN OPTION`. -/
def adminFlag (o : Option Bool) : Bool := !o.isNone && valueBool o

/-- The SQL statements the resources execute, in the exact shapes produced
by the `fmt.Sprintf` calls of the source; `renderStmt` gives the text. -/
inductive SqlStmt where
  | grantObj (priv objType objName grantee : String)
  | revokeObj (priv objType objName grantee : String)
  | grantSys (priv grantee : String) (withAdmin : Bool)
  | revokeSys (priv grantee : String)
  | grantRole (role grantee : String) (withAdmin : Bool)
  | revokeRole (role grantee : String)
deriving DecidableEq

/-- The literal SQL text of a statement, matching the source format strings. -/
def renderStmt : SqlStmt → String
  | .grantObj p t n g => "GRANT " ++ p ++ " ON " ++ t ++ " " ++ n ++ " TO \"" ++ g ++ "\""
  | .revokeObj p t n g => "REVOKE " ++ p ++ " ON " ++ t ++ " " ++ n ++ " FROM \"" ++ g ++ "\""
  | .grantSys p g wa =>
    "GRANT " ++ p ++ " TO \"" ++ g ++ "\"" ++ (if wa then " WITH ADMIN OPTION" else "")
  | .revokeSys p g => "REVOKE " ++ p ++ " FROM \"" ++ g ++ "\""
  | .grantRole r g wa =>
    "GRANT \"" ++ r ++ "\" TO \"" ++ g ++ "\"" ++ (if wa then " WITH ADMIN OPTION" else "")
  | .revokeRole r g => "REVOKE \"" ++ r ++ "\" FROM \"" ++ g ++ "\""

/-- Whether a statement is one of the GRANT shapes. -/
def isGrantStmt : SqlStmt → Bool
  | .grantObj .. | .grantSys .. | .grantRole .. => true
  | _ => false

/-- Result of a mutating operation: the statements executed in order
(including a failing one), the diagnostics added, and the record persisted
by `State.Set` (`none` when the operation returned before persisting). -/
structure OpResult (S M : Type) where
  trace : List S
  errors : List String
  persisted : Option M
deriving DecidableEq

/-- Result of the single-row catalog query behind a Read: `notFound` is
`sql.ErrNoRows`, `found` carries the `ADMIN_OPTION` text the server
returned, `qerr` is a genuine query error. -/
inductive QueryResult where
  | notFound
  | found (adminOption : String)
  | qerr (msg : String)
deriving DecidableEq

/-- Outcome of a Read: resource removed from state, a diagnostic error, or
a refreshed record persisted. -/
inductive ReadOutcome (M : Type) where
  | removed
  | failed (msg : String)
  | persisted (st : M)
deriving DecidableEq

/-- Execute statements in order, stopping at the first failure (the Go
grant loops `return` on the first `ExecContext` error). Returns the
attempted statements and whether all succeeded. -/
def runStmtsAbort (ok : SqlStmt → Bool) : List SqlStmt → List SqlStmt × Bool
  | [] => ([], true)
  | s :: rest =>
    if ok s then
      let r := runStmtsAbort ok rest
      (s :: r.1, r.2)
    else ([s], false)

/-- `systemPrivilegeModel` from `system_privilege_resource.go`. -/
structure systemPrivilegeModel where
  id : String
  grantee : String
  privilege : String
  withAdminOption : Option Bool
deriving DecidableEq

/-- `roleGrantModel` from `role_grant_resource.go`. -/
structure roleGrantModel where
  id : String
  role : String
  grantee : String
  withAdminOption : Option Bool
deriving DecidableEq

/-- `objectPrivilegeModel` from `object_privilege_resource.go`. -/
structure objectPrivilegeModel where
  id : String
  grantee : String
  privileges : List String
  objectType : String
  objectName : String
deriving DecidableEq

/-- `grantModel` from `grant_resource.go` (the generic grant resource);
`objectType`, `objectName` and `withAdminOption` are optional attributes. -/
structure grantModel where
  id : String
  granteeName : String
  privilegeType : String
  privilege : String
  objectType : Option String
  objectName : Option String
  withAdminOption : Option Bool
deriving DecidableEq

/-- `systemPrivilegeID`: `GRANTEE|PRIVILEGE|ADMIN_OPTION`, where a null
admin option renders as `"false"`. -/
def systemPrivilegeID (m : systemPrivilegeModel) : String :=
  let adminOption := if !m.withAdminOption.isNone && valueBool m.withAdminOption
    then "true" else "false"
  goUpper m.grantee ++ "|" ++ goUpper m.privilege ++ "|" ++ adminOption

/-- `roleGrantID`: `ROLE|GRANTEE|ADMIN_OPTION`, where a null admin option
renders as `"false"`. -/
def roleGrantID (m : roleGrantModel) : String :=
  let adminOption := if !m.withAdminOption.isNone && valueBool m.withAdminOption
    then "true" else "false"
  goUpper m.role ++ "|" ++ goUpper m.grantee ++ "|" ++ adminOption

/-- `objectPrivilegeID`: `GRANTEE|PRIVILEGES|OBJECT_TYPE|OBJECT_NAME` with
the privileges uppercased, sorted and comma-joined. -/
def objectPrivilegeID (m : objectPrivilegeModel) : String :=
  let grantee := goUpper m.grantee
  let objectType := goUpper m.objectType
  let objectName := goUpper m.objectName
  let privilegesStr := joinComma (sortStrings (m.privileges.map goUpper))
  grantee ++ "|" ++ privilegesStr ++ "|" ++ objectType ++ "|" ++ objectName

/-- `idForGrant` from `grant_resource.go`:
`GRANTEE|PRIVTYPE|PRIV|OBJTYPE|OBJNAME|WITHADMIN` (the object name is not
uppercased; the admin option is `ValueBool` rendered with `%t`). -/
def idForGrant (m : grantModel) : String :=
  String.intercalate "|"
    [goUpper m.granteeName, goUpper m.privilegeType, goUpper m.privilege,
     goUpper (valueStr m.objectType), valueStr m.objectName,
     if valueBool m.withAdminOption then "true" else "false"]

/-- `SystemPrivilegeResource.Create`: validate the uppercased grantee,
issue one GRANT (with admin clause iff explicitly true), persist on
success. -/
def systemPrivilegeCreate (ok : SqlStmt → Bool) (plan : systemPrivilegeModel) :
    OpResult SqlStmt systemPrivilegeModel :=
  let grantee := goUpper plan.grantee
  let privilege := goUpper plan.privilege
  if !isValidIdentifier grantee then ⟨[], ["Invalid grantee"], none⟩
  else
    let stmt := SqlStmt.grantSys privilege grantee (adminFlag plan.withAdminOption)
    if ok stmt then ⟨[stmt], [], some { plan with id := systemPrivilegeID plan }⟩
    else ⟨[stmt], ["GRANT failed"], none⟩

/-- `SystemPrivilegeResource.Read`: on a found row, overwrite the stored
admin option with `adminOption == "TRUE"` only when the stored value is
not null; recompute the ID. -/
def systemPrivilegeRead (q : QueryResult) (state : systemPrivilegeModel) :
    ReadOutcome systemPrivilegeModel :=
  match q with
  | .notFound => .removed
  | .qerr e => .failed e
  | .found adminOption =>
    let st := if state.withAdminOption.isNone then state
      else { state with withAdminOption := some (adminOption == "TRUE") }
    .persisted { st with id := systemPrivilegeID st }

/-- `SystemPrivilegeResource.Update`: raw grantee/privilege change causes
revoke-old-then-grant-new; otherwise a `ValueBool` admin-option change
causes revoke-then-regrant; otherwise no statement. Any statement failure
aborts before persisting. -/
def systemPrivilegeUpdate (ok : SqlStmt → Bool) (plan state : systemPrivilegeModel) :
    OpResult SqlStmt systemPrivilegeModel :=
  if plan.grantee ≠ state.grantee ∨ plan.privilege ≠ state.privilege then
    let rvk := SqlStmt.revokeSys (goUpper state.privilege) (goUpper state.grantee)
    if !ok rvk then ⟨[rvk], ["REVOKE failed"], none⟩
    else
      let gnt := SqlStmt.grantSys (goUpper plan.privilege) (goUpper plan.grantee)
        (adminFlag plan.withAdminOption)
      if !ok gnt then ⟨[rvk, gnt], ["GRANT failed"], none⟩
      else ⟨[rvk, gnt], [], some { plan with id := systemPrivilegeID plan }⟩
  else if valueBool plan.withAdminOption ≠ valueBool state.withAdminOption then
    let rvk := SqlStmt.revokeSys (goUpper plan.privilege) (goUpper plan.grantee)
    if !ok rvk then ⟨[rvk], ["REVOKE failed"], none⟩
    else
      let gnt := SqlStmt.grantSys (goUpper plan.privilege) (goUpper plan.grantee)
        (adminFlag plan.withAdminOption)
      if !ok gnt then ⟨[rvk, gnt], ["GRANT failed"], none⟩
      else ⟨[rvk, gnt], [], some { plan with id := systemPrivilegeID plan }⟩
  else ⟨[], [], some { plan with id := systemPrivilegeID plan }⟩

/-- `RoleGrantResource.Create`: validate role and grantee, issue one GRANT,
persist on success. -/
def roleGrantCreate (ok : SqlStmt → Bool) (plan : roleGrantModel) :
    OpResult SqlStmt roleGrantModel :=
  let role := goUpper plan.role
  let grantee := goUpper plan.grantee
  if !isValidIdentifier role then ⟨[], ["Invalid role name"], none⟩
  else if !isValidIdentifier grantee then ⟨[], ["Invalid grantee"], none⟩
  else
    let stmt := SqlStmt.grantRole role grantee (adminFlag plan.withAdminOption)
    if ok stmt then ⟨[stmt], [], some { plan with id := roleGrantID plan }⟩
    else ⟨[stmt], ["GRANT failed"], none⟩

/-- `RoleGrantResource.Read`: on a found row, always overwrite the stored
admin option with the normalized observed value
(`adminOption == "TRUE" || adminOption == "1" || adminOption == "true"`);
recompute the ID. -/
def roleGrantRead (q : QueryResult) (state : roleGrantModel) :
    ReadOutcome roleGrantModel :=
  match q with
  | .notFound => .removed
  | .qerr e => .failed e
  | .found adminOption =>
    let st := { state with
      withAdminOption :=
        some (adminOption == "TRUE" || adminOption == "1" || adminOption == "true") }
    .persisted { st with id := roleGrantID st }

/-- `RoleGrantResource.Update`: same shape as the system-privilege update,
keyed on role/grantee. -/
def roleGrantUpdate (ok : SqlStmt → Bool) (plan state : roleGrantModel) :
    OpResult SqlStmt roleGrantModel :=
  if plan.role ≠ state.role ∨ plan.grantee ≠ state.grantee then
    let rvk := SqlStmt.revokeRole (goUpper state.role) (goUpper state.grantee)
    if !ok rvk then ⟨[rvk], ["REVOKE failed"], none⟩
    else
      let gnt := SqlStmt.grantRole (goUpper plan.role) (goUpper plan.grantee)
        (adminFlag plan.withAdminOption)
      if !ok gnt then ⟨[rvk, gnt], ["GRANT failed"], none⟩
      else ⟨[rvk, gnt], [], some { plan with id := roleGrantID plan }⟩
  else if valueBool plan.withAdminOption ≠ valueBool state.withAdminOption then
    let rvk := SqlStmt.revokeRole (goUpper plan.role) (goUpper plan.grantee)
    if !ok rvk then ⟨[rvk], ["REVOKE failed"], none⟩
    else
      let gnt := SqlStmt.grantRole (goUpper plan.role) (goUpper plan.grantee)
        (adminFlag plan.withAdminOption)
      if !ok gnt then ⟨[rvk, gnt], ["GRANT failed"], none⟩
      else ⟨[rvk, gnt], [], some { plan with id := roleGrantID plan }⟩
  else ⟨[], [], some { plan with id := roleGrantID plan }⟩

/-- One row of the `EXA_DBA_OBJ_PRIVS` catalog view. -/
structure ObjPrivRow where
  grantee : String
  privilege : String
  objectType : String
  objectName : String
deriving DecidableEq

/-- The point-lookup query
`SELECT 1 FROM EXA_DBA_OBJ_PRIVS WHERE GRANTEE = ? AND PRIVILEGE = ? AND
OBJECT_TYPE = ? AND OBJECT_NAME = ?`. -/
def hasObjPrivRow (cat : List ObjPrivRow) (g p t n : String) : Bool :=
  cat.any (fun r => r.grantee == g && r.privilege == p && r.objectType == t && r.objectName == n)

/-- The fallback count query
`SELECT COUNT(*) FROM EXA_DBA_OBJ_PRIVS WHERE GRANTEE = ? AND
OBJECT_TYPE = ? AND OBJECT_NAME = ?` (no privilege filter). -/
def countObjPrivRows (cat : List ObjPrivRow) (g t n : String) : Nat :=
  (cat.filter (fun r => r.grantee == g && r.objectType == t && r.objectName == n)).length

/-- `checkObjectPrivilegeExists`: for the literal privilege `"ALL"`, first
a direct lookup of an `ALL` row; only when that returns no rows, fall back
to counting any privilege rows for the same (grantee, type, name) tuple,
reporting found iff the count is positive. For any other privilege, a
direct point lookup. (Query errors propagate unchanged in the source and
are not modelled by the row-list catalog.) -/
def checkObjectPrivilegeExists (cat : List ObjPrivRow) (g p t n : String) : Bool :=
  if p = "ALL" then
    if hasObjPrivRow cat g "ALL" t n then true
    else decide (0 < countObjPrivRows cat g t n)
  else hasObjPrivRow cat g p t n

/-- The `foundPrivileges` loop of `ObjectPrivilegeResource.Read`: each
declared privilege, uppercased, checked individually against the catalog,
kept in declaration order when observed. -/
def observedPrivileges (cat : List ObjPrivRow) (state : objectPrivilegeModel) :
    List String :=
  (state.privileges.map goUpper).filter
    (fun priv => checkObjectPrivilegeExists cat (goUpper state.grantee) priv
      (goUpper state.objectType) (goUpper state.objectName))

/-- `ObjectPrivilegeResource.Read`: check each declared privilege
individually (uppercased, in declaration order); remove the resource when
none is found, otherwise persist exactly the found subset with a
recomputed ID. -/
def objectPrivilegeRead (cat : List ObjPrivRow) (state : objectPrivilegeModel) :
    ReadOutcome objectPrivilegeModel :=
  let foundPrivileges := observedPrivileges cat state
  if foundPrivileges = [] then .removed
  else
    let st := { state with privileges := foundPrivileges }
    .persisted { st with id := objectPrivilegeID st }

/-- `ObjectPrivilegeResource.Update`: if grantee, object type or qualified
object name changed, revoke every old privilege (best effort) and grant
every new one (aborting on failure); otherwise diff the deduplicated
uppercased privilege sets, revoking removed ones (best effort) and
granting added ones (aborting on failure). Persist only when no grant
failed. -/
def objectPrivilegeUpdate (ok : SqlStmt → Bool) (plan state : objectPrivilegeModel) :
    OpResult SqlStmt objectPrivilegeModel :=
  let oldGrantee := goUpper state.grantee
  let newGrantee := goUpper plan.grantee
  let oldObjectType := goUpper state.objectType
  let newObjectType := goUpper plan.objectType
  let oldObjectName := qualify state.objectName
  let newObjectName := qualify plan.objectName
  if oldGrantee ≠ newGrantee ∨ oldObjectType ≠ newObjectType ∨ oldObjectName ≠ newObjectName then
    let revokes := state.privileges.map (fun p =>
      SqlStmt.revokeObj (goUpper p) oldObjectType oldObjectName oldGrantee)
    let grants := plan.privileges.map (fun p =>
      SqlStmt.grantObj (goUpper p) newObjectType newObjectName newGrantee)
    let run := runStmtsAbort ok grants
    if run.2 then ⟨revokes ++ run.1, [], some { plan with id := objectPrivilegeID plan }⟩
    else ⟨revokes ++ run.1, ["GRANT failed"], none⟩
  else
    let oldPrivSet := (state.privileges.map goUpper).dedup
    let newPrivSet := (plan.privileges.map goUpper).dedup
    let revokes := (oldPrivSet.filter (fun p => !decide (p ∈ newPrivSet))).map (fun p =>
      SqlStmt.revokeObj p newObjectType newObjectName newGrantee)
    let grants := (newPrivSet.filter (fun p => !decide (p ∈ oldPrivSet))).map (fun p =>
      SqlStmt.grantObj p newObjectType newObjectName newGrantee)
    let run := runStmtsAbort ok grants
    if run.2 then ⟨revokes ++ run.1, [], some { plan with id := objectPrivilegeID plan }⟩
    else ⟨revokes ++ run.1, ["GRANT failed"], none⟩

/-- `buildGrantSQL` from `grant_resource.go`. -/
def buildGrantSQL (m : grantModel) : Except String String :=
  let grantee := "\"" ++ goUpper m.granteeName ++ "\""
  let priv := goUpper m.privilege
  let pt := goUpper m.privilegeType
  if pt = "SYSTEM" then
    .ok ("GRANT " ++ priv ++ " TO " ++ grantee
      ++ (if valueBool m.withAdminOption then " WITH ADMIN OPTION" else ""))
  else if pt = "OBJECT" then
    if m.objectType.isNone ∨ m.objectName.isNone then
      .error "object_type and object_name are required for OBJECT privileges"
    else
      .ok ("GRANT " ++ priv ++ " ON " ++ goUpper (valueStr m.objectType) ++ " "
        ++ qualify (valueStr m.objectName) ++ " TO " ++ grantee)
  else .error "privilege_type must be SYSTEM or OBJECT"

/-- `buildRevokeSQL` from `grant_resource.go`. -/
def buildRevokeSQL (m : grantModel) : Except String String :=
  let grantee := "\"" ++ goUpper m.granteeName ++ "\""
  let priv := goUpper m.privilege
  let pt := goUpper m.privilegeType
  if pt = "SYSTEM" then
    .ok ("REVOKE " ++ priv ++ " FROM " ++ grantee)
  else if pt = "OBJECT" then
    if m.objectType.isNone ∨ m.objectName.isNone then
      .error "object_type and object_name are required for OBJECT privileges"
    else
      .ok ("REVOKE " ++ priv ++ " ON " ++ goUpper (valueStr m.objectType) ++ " "
        ++ qualify (valueStr m.objectName) ++ " FROM " ++ grantee)
  else .error "privilege_type must be SYSTEM or OBJECT"

/-- `isSchemaObjectRename`: an OBJECT privilege on SCHEMA (case-folded, in
both plan and state) where grantee, privilege and the folded admin option
are unchanged and only the object name differs. -/
def isSchemaObjectRename (plan state : grantModel) : Bool :=
  if !equalFold plan.privilegeType "OBJECT" || !equalFold state.privilegeType "OBJECT"
      || !equalFold (valueStr plan.objectType) "SCHEMA"
      || !equalFold (valueStr state.objectType) "SCHEMA" then
    false
  else
    plan.granteeName == state.granteeName && plan.privilege == state.privilege
      && valueBool plan.withAdminOption == valueBool state.withAdminOption
      && valueStr plan.objectName != valueStr state.objectName

/-- `GrantResource.Update`: a recognized schema rename updates only the
stored ID; otherwise, when the identity changed, revoke under the old
identity then grant under the new one, aborting (without persisting) on
any build or execution failure. -/
def grantUpdate (ok : String → Bool) (plan state : grantModel) :
    OpResult String grantModel :=
  if isSchemaObjectRename plan state then
    ⟨[], [], some { plan with id := idForGrant plan }⟩
  else
    let oldID := idForGrant state
    let newID := idForGrant plan
    if oldID ≠ newID then
      match buildRevokeSQL state with
      | .error _ => ⟨[], ["Invalid revoke statement"], none⟩
      | .ok rv =>
        if !ok rv then ⟨[rv], ["REVOKE failed"], none⟩
        else
          match buildGrantSQL plan with
          | .error _ => ⟨[rv], ["Invalid grant statement"], none⟩
          | .ok g =>
            if !ok g then ⟨[rv, g], ["GRANT failed"], none⟩
            else ⟨[rv, g], [], some { plan with id := newID }⟩
    else ⟨[], [], some { plan with id := newID }⟩

/-- The ObjectPrivilege identifier format as the spec states it:
`GRANTEE|PRIVILEGE1,PRIVILEGE2,...|OBJECT_TYPE|OBJECT_NAME`, fields
uppercased, privileges sorted and comma-joined, joined with `|`. Stated
from the spec's words for comparison with `objectPrivilegeID`. -/
def specObjectPrivilegeID (m : objectPrivilegeModel) : String :=
  String.intercalate "|"
    [goUpper m.grantee, joinComma (sortStrings (m.privileges.map goUpper)),
     goUpper m.objectType, goUpper m.objectName]

lemma identHead_sub_tail {c : Char} (h : isIdentHeadChar c = true) :
    isIdentTailChar c = true := by
  simp only [isIdentHeadChar] at h
  simp only [isIdentTailChar, Bool.or_eq_true]
  exact Or.inl (Or.inl h)

lemma matchesIdentPattern_iff (s : String) :
    matchesIdentPattern s = true ↔
      ∃ c rest, s.data = c :: rest ∧ isIdentHeadChar c = true ∧
        ∀ d ∈ rest, isIdentTailChar d = true := by
  obtain ⟨data⟩ := s
  cases data with
  | nil => simp [matchesIdentPattern]
  | cons c rest =>
    simp only [matchesIdentPattern, Bool.and_eq_true, List.all_eq_true]
    constructor
    · rintro ⟨h1, h2⟩
      exact ⟨c, rest, rfl, h1, h2⟩
    · rintro ⟨c', rest', heq, h1, h2⟩
      obtain ⟨rfl, rfl⟩ := List.cons.inj heq
      exact ⟨h1, h2⟩

/-- Claim C9: the identifier validator accepts exactly the non-empty names
whose uppercased form matches the anchored pattern `^[A-Z][A-Z0-9_]*$`
(first character a letter, the rest letters, digits or underscores). In
particular it rejects the empty string, and any name containing a
character whose uppercased form is outside the letter/digit/underscore
classes — quotes, spaces and other punctuation. -/
theorem c9_identifier_validator_accepts_pattern (name : String) :
    (isValidIdentifier name = true ↔
      (name ≠ "" ∧ ∃ c rest, (goUpper name).data = c :: rest ∧
        isIdentHeadChar c = true ∧ ∀ d ∈ rest, isIdentTailChar d = true))
    ∧ isValidIdentifier "" = false
    ∧ (∀ c ∈ name.data, isIdentTailChar c.toUpper = false →
        isValidIdentifier name = false) := by
  refine ⟨?_, rfl, ?_⟩
  · by_cases h0 : name = ""
    · subst h0
      simp [isValidIdentifier]
    · simp [isValidIdentifier, h0, matchesIdentPattern_iff (goUpper name)]
  · intro c hc hbad
    by_cases h0 : name = ""
    · subst h0
      rfl
    · have hmem : c.toUpper ∈ (goUpper name).data := by
        show c.toUpper ∈ name.data.map Char.toUpper
        exact List.mem_map_of_mem Char.toUpper hc
      simp only [isValidIdentifier, if_neg h0]
      rw [Bool.eq_false_iff]
      intro hmatch
      obtain ⟨d, rest, hdata, hhead, htail⟩ :=
        (matchesIdentPattern_iff (goUpper name)).mp hmatch
      rw [hdata] at hmem
      rcases List.mem_cons.mp hmem with heq | hrest
      · rw [heq] at hbad
        exact absurd (identHead_sub_tail hhead) (by simp [hbad])
      · exact absurd (htail _ hrest) (by simp [hbad])

/-- Witness for C9: a name containing a space is rejected. -/
theorem c9_witness : isValidIdentifier "MY TABLE" = false :=
  (c9_identifier_validator_accepts_pattern "MY TABLE").2.2 ' ' (by decide) (by decide)

/-- Claim C10: the SystemPrivilege and RoleGrant identity computations fold
a null admin option to the token `"false"`: a declaration with the option
unset and one with the option explicitly `false` yield the same persisted
identifier, although the stored field itself is tri-state. -/
theorem c10_identity_folds_unset_admin_to_false (i₁ i₂ j₁ j₂ g p r gr : String) :
    systemPrivilegeID ⟨i₁, g, p, none⟩ = systemPrivilegeID ⟨i₂, g, p, some false⟩ ∧
    roleGrantID ⟨j₁, r, gr, none⟩ = roleGrantID ⟨j₂, r, gr, some false⟩ :=
  ⟨rfl, rfl⟩

/-- Claim C7: the persisted ObjectPrivilege identifier is
`GRANTEE|PRIVILEGES|OBJECT_TYPE|OBJECT_NAME` with the privileges
uppercased, sorted and comma-joined (the spec-format rendering
`specObjectPrivilegeID`), and it is invariant under reordering or
case changes of the privileges list. -/
theorem c7_object_privilege_identity_canonical (m₁ m₂ : objectPrivilegeModel)
    (hg : m₁.grantee = m₂.grantee) (ht : m₁.objectType = m₂.objectType)
    (hn : m₁.objectName = m₂.objectName)
    (hp : (m₁.privileges.map goUpper).Perm (m₂.privileges.map goUpper)) :
    objectPrivilegeID m₁ = specObjectPrivilegeID m₁ ∧
    objectPrivilegeID m₁ = objectPrivilegeID m₂ := by
  refine ⟨rfl, ?_⟩
  unfold objectPrivilegeID
  rw [hg, ht, hn, sortStrings_perm_invariant hp]

/-- Witness for C7 at concrete inputs: the privilege lists
`["SELECT","INSERT"]` and `["insert","select"]` yield identical
identifiers. -/
theorem c7_witness :
    objectPrivilegeID ⟨"", "R", ["SELECT", "INSERT"], "SCHEMA", "S"⟩ =
      objectPrivilegeID ⟨"x", "R", ["insert", "select"], "SCHEMA", "S"⟩ :=
  (c7_object_privilege_identity_canonical
    ⟨"", "R", ["SELECT", "INSERT"], "SCHEMA", "S"⟩
    ⟨"x", "R", ["insert", "select"], "SCHEMA", "S"⟩
    rfl rfl rfl (by decide)).2

lemma hasObjPrivRow_iff (cat : List ObjPrivRow) (g p t n : String) :
    hasObjPrivRow cat g p t n = true ↔
      ∃ r ∈ cat, r.grantee = g ∧ r.privilege = p ∧ r.objectType = t ∧
        r.objectName = n := by
  simp [hasObjPrivRow, List.any_eq_true, Bool.and_eq_true, beq_iff_eq]
  tauto

lemma countObjPrivRows_pos_iff (cat : List ObjPrivRow) (g t n : String) :
    0 < countObjPrivRows cat g t n ↔
      ∃ r ∈ cat, r.grantee = g ∧ r.objectType = t ∧ r.objectName = n := by
  simp [countObjPrivRows, List.length_pos_iff_exists_mem, List.mem_filter,
    Bool.and_eq_true, beq_iff_eq]
  tauto

/-- Claim C3: for a declared `"ALL"` privilege the existence check reports
found exactly when a literal `ALL` row is present for
(grantee, objectType, objectName), or — only when no such literal row
exists — when at least one privilege row for the same tuple is present
(the count fallback is positive). -/
theorem c3_all_check_direct_then_count (cat : List ObjPrivRow) (g t n : String) :
    checkObjectPrivilegeExists cat g "ALL" t n = true ↔
      ((∃ r ∈ cat, r.grantee = g ∧ r.privilege = "ALL" ∧ r.objectType = t ∧
          r.objectName = n) ∨
        (¬ (∃ r ∈ cat, r.grantee = g ∧ r.privilege = "ALL" ∧ r.objectType = t ∧
            r.objectName = n) ∧
          ∃ r ∈ cat, r.grantee = g ∧ r.objectType = t ∧ r.objectName = n)) := by
  unfold checkObjectPrivilegeExists
  rw [if_pos rfl]
  cases hB : hasObjPrivRow cat g "ALL" t n with
  | true =>
    rw [if_pos rfl]
    exact iff_of_true rfl (Or.inl ((hasObjPrivRow_iff cat g "ALL" t n).mp hB))
  | false =>
    have hno : ¬ ∃ r ∈ cat, r.grantee = g ∧ r.privilege = "ALL" ∧
        r.objectType = t ∧ r.objectName = n := by
      intro hx
      rw [(hasObjPrivRow_iff cat g "ALL" t n).mpr hx] at hB
      exact Bool.true_eq_false.mp hB
    rw [if_neg Bool.false_ne_true]
    simp [decide_eq_true_eq, countObjPrivRows_pos_iff, hno]

/-- Claim C6: a multi-privilege ObjectPrivilege read checks each declared
privilege individually and keeps exactly the observed subset: when no
declared privilege is observed the record is removed, otherwise the record
is persisted with exactly the observed privileges and an identifier
recomputed from them. -/
theorem c6_read_keeps_observed_subset (cat : List ObjPrivRow)
    (state : objectPrivilegeModel) :
    (observedPrivileges cat state = [] ∧ objectPrivilegeRead cat state = .removed) ∨
    (observedPrivileges cat state ≠ [] ∧
      objectPrivilegeRead cat state = .persisted
        { state with
          privileges := observedPrivileges cat state
          id := objectPrivilegeID
            { state with privileges := observedPrivileges cat state } }) := by
  by_cases h : observedPrivileges cat state = []
  · exact Or.inl ⟨h, by simp [objectPrivilegeRead, h]⟩
  · exact Or.inr ⟨h, by simp [objectPrivilegeRead, h]⟩

/-- Counterexample to C1: for a RoleGrant declared with the admin option
unset, a create-then-read cycle does not leave it unset — the Read
overwrites the stored null with the observed (normalized) catalog value,
here `FALSE ↦ some false`. -/
theorem c1_counterexample_role_read_overwrites_null :
    (roleGrantCreate (fun _ => true) ⟨"", "R", "U", none⟩).persisted =
      some ⟨"R|U|false", "R", "U", none⟩ ∧
    roleGrantRead (.found "FALSE") ⟨"R|U|false", "R", "U", none⟩ =
      .persisted ⟨"R|U|false", "R", "U", some false⟩ := by
  decide

/-- Claim C1 as amended: only for SystemPrivilege does a full
create-then-read cycle preserve an unset adminOption — the Read never
overwrites a null stored WithAdminOption with the observed catalog value.
(RoleGrant Read always adopts the observed value, per the
counterexample.) -/
theorem c1_amended_system_read_preserves_unset (ok : SqlStmt → Bool)
    (plan st : systemPrivilegeModel) (adm : String)
    (hnull : plan.withAdminOption = none)
    (hcreate : (systemPrivilegeCreate ok plan).persisted = some st) :
    ∃ st', systemPrivilegeRead (.found adm) st = .persisted st' ∧
      st'.withAdminOption = none := by
  have hst : st.withAdminOption = none := by
    simp only [systemPrivilegeCreate] at hcreate
    split at hcreate
    · simp at hcreate
    · split at hcreate
      · have he := Option.some.inj hcreate
        rw [← he]
        exact hnull
      · simp at hcreate
  refine ⟨{ st with id := systemPrivilegeID st }, ?_, hst⟩
  simp [systemPrivilegeRead, hst]

/-- Witness for the amended C1 at a concrete create-then-read cycle. -/
theorem c1_witness :
    ∃ st', systemPrivilegeRead (.found "TRUE")
        ⟨"U|CREATE SESSION|false", "U", "CREATE SESSION", none⟩ = .persisted st' ∧
      st'.withAdminOption = none :=
  c1_amended_system_read_preserves_unset (fun _ => true)
    ⟨"", "U", "CREATE SESSION", none⟩
    ⟨"U|CREATE SESSION|false", "U", "CREATE SESSION", none⟩ "TRUE" rfl (by decide)

/-- Counterexample to C2: the dedicated ObjectPrivilege resource, updated
with only the object name changed (A to B), issues a REVOKE and a GRANT
rather than no statement. -/
theorem c2_counterexample_object_resource_revokes_on_rename :
    objectPrivilegeUpdate (fun _ => true)
      ⟨"", "R", ["SELECT"], "SCHEMA", "B"⟩ ⟨"", "R", ["SELECT"], "SCHEMA", "A"⟩ =
    ⟨[SqlStmt.revokeObj "SELECT" "SCHEMA" "\"A\"" "R",
      SqlStmt.grantObj "SELECT" "SCHEMA" "\"B\"" "R"], [],
      some ⟨"R|SELECT|SCHEMA|B", "R", ["SELECT"], "SCHEMA", "B"⟩⟩ := by
  decide

/-- Claim C2 as amended: only the generic grant resource treats an
object-name-only change as a SQL no-op, and only for an OBJECT privilege
on a SCHEMA (case-folded, in both plan and state) with grantee, privilege
and folded admin option unchanged: then no GRANT or REVOKE is issued and
only the stored identifier is updated. The dedicated ObjectPrivilege
resource instead revokes the old and grants the new privileges (per the
counterexample). -/
theorem c2_amended_generic_schema_rename_noop (ok : String → Bool)
    (plan state : grantModel)
    (hpt₁ : equalFold plan.privilegeType "OBJECT" = true)
    (hpt₂ : equalFold state.privilegeType "OBJECT" = true)
    (hot₁ : equalFold (valueStr plan.objectType) "SCHEMA" = true)
    (hot₂ : equalFold (valueStr state.objectType) "SCHEMA" = true)
    (hg : plan.granteeName = state.granteeName)
    (hp : plan.privilege = state.privilege)
    (ha : valueBool plan.withAdminOption = valueBool state.withAdminOption)
    (hn : valueStr plan.objectName ≠ valueStr state.objectName) :
    grantUpdate ok plan state = ⟨[], [], some { plan with id := idForGrant plan }⟩ := by
  have hr : isSchemaObjectRename plan state = true := by
    unfold isSchemaObjectRename
    rw [hpt₁, hpt₂, hot₁, hot₂]
    simp [hg, hp, ha, hn]
  unfold grantUpdate
  rw [if_pos hr]

/-- Witness for the amended C2 at a concrete schema rename. -/
theorem c2_witness :
    grantUpdate (fun _ => true)
      ⟨"", "R", "OBJECT", "USAGE", some "SCHEMA", some "B", none⟩
      ⟨"", "R", "OBJECT", "USAGE", some "SCHEMA", some "A", none⟩ =
    ⟨[], [], some ⟨idForGrant ⟨"", "R", "OBJECT", "USAGE", some "SCHEMA", some "B", none⟩,
      "R", "OBJECT", "USAGE", some "SCHEMA", some "B", none⟩⟩ :=
  c2_amended_generic_schema_rename_noop (fun _ => true)
    ⟨"", "R", "OBJECT", "USAGE", some "SCHEMA", some "B", none⟩
    ⟨"", "R", "OBJECT", "USAGE", some "SCHEMA", some "A", none⟩
    (by decide) (by decide) (by decide) (by decide) rfl rfl rfl (by decide)

/-- Counterexample to C4: a SystemPrivilege read that observes the
admin-option text `"true"` stores `false`, not `true` — the
system-privilege path compares against the single token `"TRUE"` only,
not the three-token set. -/
theorem c4_counterexample_lowercase_true_maps_to_false :
    systemPrivilegeRead (.found "true") ⟨"", "U", "P", some true⟩ =
      .persisted ⟨"U|P|false", "U", "P", some false⟩ := by
  decide

/-- Claim C4 as amended: the SystemPrivilege read (when the stored admin
option was explicitly set) normalizes the observed text by comparing with
exactly `"TRUE"`; the three-token set `"TRUE"`, `"1"`, `"true"` (every
other text mapping to false) is applied by the RoleGrant read. -/
theorem c4_amended_admin_normalization (s₁ : systemPrivilegeModel)
    (s₂ : roleGrantModel) (adm : String) (h : s₁.withAdminOption ≠ none) :
    (∃ st, systemPrivilegeRead (.found adm) s₁ = .persisted st ∧
      st.withAdminOption = some (adm == "TRUE")) ∧
    (∃ st, roleGrantRead (.found adm) s₂ = .persisted st ∧
      st.withAdminOption = some (adm == "TRUE" || adm == "1" || adm == "true")) := by
  constructor
  · have hn : s₁.withAdminOption.isNone = false := by
      cases hx : s₁.withAdminOption
      · exact absurd hx h
      · rfl
    refine ⟨{ s₁ with withAdminOption := some (adm == "TRUE"), id := systemPrivilegeID { s₁ with withAdminOption := some (adm == "TRUE") } }, ?_, rfl⟩
    simp [systemPrivilegeRead, hn]
  · exact ⟨_, rfl, rfl⟩

/-- Witness for the amended C4: the text `"1"` normalizes to false on the
system-privilege path and to true on the role-grant path. -/
theorem c4_witness :
    (∃ st, systemPrivilegeRead (.found "1") ⟨"", "U", "P", some true⟩ =
        .persisted st ∧ st.withAdminOption = some (("1" : String) == "TRUE")) ∧
    (∃ st, roleGrantRead (.found "1") ⟨"", "R", "G", none⟩ = .persisted st ∧
      st.withAdminOption =
        some (("1" : String) == "TRUE" || ("1" : String) == "1" ||
          ("1" : String) == "true")) :=
  c4_amended_admin_normalization ⟨"", "U", "P", some true⟩ ⟨"", "R", "G", none⟩
    "1" (by decide)

lemma runStmtsAbort_all_success (ok : SqlStmt → Bool) (l : List SqlStmt)
    (h : ∀ s, ok s = true) : runStmtsAbort ok l = (l, true) := by
  induction l with
  | nil => rfl
  | cons s rest ih => simp [runStmtsAbort, h s, ih]

lemma runStmtsAbort_mem_ok (ok : SqlStmt → Bool) (l : List SqlStmt)
    (h : (runStmtsAbort ok l).2 = true) :
    ∀ s ∈ (runStmtsAbort ok l).1, ok s = true := by
  induction l with
  | nil =>
    intro s hs
    simp [runStmtsAbort] at hs
  | cons a rest ih =>
    intro s hs
    by_cases ha : ok a = true
    · simp only [runStmtsAbort, ha, if_pos] at h hs
      rcases List.mem_cons.mp hs with rfl | hs'
      · exact ha
      · exact ih h s hs'
    · rw [Bool.not_eq_true] at ha
      simp [runStmtsAbort, ha] at h

lemma count_map_filter_dedup (f : String → SqlStmt) (hf : Function.Injective f)
    (l : List String) (q : String → Bool) (p : String) :
    ((l.dedup.filter q).map f).count (f p) = if p ∈ l ∧ q p = true then 1 else 0 := by
  rw [List.count_map_of_injective _ f hf]
  by_cases hm : p ∈ l.dedup.filter q
  · rw [List.count_eq_one_of_mem ((List.nodup_dedup l).filter q) hm]
    rw [List.mem_filter, List.mem_dedup] at hm
    rw [if_pos hm]
  · rw [List.count_eq_zero.mpr hm]
    rw [List.mem_filter, List.mem_dedup] at hm
    rw [if_neg hm]

lemma count_map_ne_ctor (f : String → SqlStmt) (l : List String) (x : SqlStmt)
    (h : ∀ a, f a ≠ x) : (l.map f).count x = 0 := by
  refine List.count_eq_zero.mpr ?_
  intro hmem
  obtain ⟨a, _, hfa⟩ := List.mem_map.mp hmem
  exact h a hfa

lemma objectPrivilegeUpdate_trace_same_coords (ok : SqlStmt → Bool)
    (plan state : objectPrivilegeModel) (hok : ∀ s, ok s = true)
    (hg : goUpper state.grantee = goUpper plan.grantee)
    (ht : goUpper state.objectType = goUpper plan.objectType)
    (hn : qualify state.objectName = qualify plan.objectName) :
    (objectPrivilegeUpdate ok plan state).trace =
      ((state.privileges.map goUpper).dedup.filter
          (fun p => !decide (p ∈ (plan.privileges.map goUpper).dedup))).map
        (fun p => SqlStmt.revokeObj p (goUpper plan.objectType)
          (qualify plan.objectName) (goUpper plan.grantee)) ++
      ((plan.privileges.map goUpper).dedup.filter
          (fun p => !decide (p ∈ (state.privileges.map goUpper).dedup))).map
        (fun p => SqlStmt.grantObj p (goUpper plan.objectType)
          (qualify plan.objectName) (goUpper plan.grantee)) := by
  have hcond : ¬ (goUpper state.grantee ≠ goUpper plan.grantee ∨
      goUpper state.objectType ≠ goUpper plan.objectType ∨
      qualify state.objectName ≠ qualify plan.objectName) := by
    push_neg
    exact ⟨hg, ht, hn⟩
  simp only [objectPrivilegeUpdate]
  rw [if_neg hcond, runStmtsAbort_all_success ok _ hok]
  simp

/-- Claim C5: an ObjectPrivilege update leaving grantee, object type and
object name unchanged issues exactly one REVOKE per privilege in the old
set minus the new set, exactly one GRANT per privilege in the new set
minus the old set, and no statement for a privilege in the intersection
(both counts are zero there). -/
theorem c5_update_diffs_privilege_sets (ok : SqlStmt → Bool)
    (plan state : objectPrivilegeModel) (hok : ∀ s, ok s = true)
    (hg : goUpper state.grantee = goUpper plan.grantee)
    (ht : goUpper state.objectType = goUpper plan.objectType)
    (hn : qualify state.objectName = qualify plan.objectName) (p : String) :
    ((objectPrivilegeUpdate ok plan state).trace.count
        (SqlStmt.revokeObj p (goUpper plan.objectType) (qualify plan.objectName)
          (goUpper plan.grantee)) =
      if p ∈ state.privileges.map goUpper ∧ p ∉ plan.privileges.map goUpper
        then 1 else 0) ∧
    ((objectPrivilegeUpdate ok plan state).trace.count
        (SqlStmt.grantObj p (goUpper plan.objectType) (qualify plan.objectName)
          (goUpper plan.grantee)) =
      if p ∈ plan.privileges.map goUpper ∧ p ∉ state.privileges.map goUpper
        then 1 else 0) := by
  rw [objectPrivilegeUpdate_trace_same_coords ok plan state hok hg ht hn]
  have hinjR : Function.Injective (fun p => SqlStmt.revokeObj p
      (goUpper plan.objectType) (qualify plan.objectName) (goUpper plan.grantee)) :=
    fun a b hab => (SqlStmt.revokeObj.inj hab).1
  have hinjG : Function.Injective (fun p => SqlStmt.grantObj p
      (goUpper plan.objectType) (qualify plan.objectName) (goUpper plan.grantee)) :=
    fun a b hab => (SqlStmt.grantObj.inj hab).1
  constructor
  · rw [List.count_append,
      count_map_filter_dedup _ hinjR (state.privileges.map goUpper) _ p,
      count_map_ne_ctor _ _ _ (fun a => by simp)]
    simp [List.mem_dedup]
  · rw [List.count_append,
      count_map_filter_dedup _ hinjG (plan.privileges.map goUpper) _ p,
      count_map_ne_ctor _ _ _ (fun a => by simp)]
    simp [List.mem_dedup]

/-- Witness for C5: adding `INSERT` to `["USAGE","SELECT"]` issues exactly
one GRANT for `INSERT` and no REVOKE for the unchanged `USAGE`. -/
theorem c5_witness :
    ((objectPrivilegeUpdate (fun _ => true)
        ⟨"", "R", ["USAGE", "SELECT", "INSERT"], "SCHEMA", "S"⟩
        ⟨"", "R", ["USAGE", "SELECT"], "SCHEMA", "S"⟩).trace.count
      (SqlStmt.grantObj "INSERT" "SCHEMA" "\"S\"" "R") = 1) ∧
    ((objectPrivilegeUpdate (fun _ => true)
        ⟨"", "R", ["USAGE", "SELECT", "INSERT"], "SCHEMA", "S"⟩
        ⟨"", "R", ["USAGE", "SELECT"], "SCHEMA", "S"⟩).trace.count
      (SqlStmt.revokeObj "USAGE" "SCHEMA" "\"S\"" "R") = 0) := by
  have h1 := c5_update_diffs_privilege_sets (fun _ => true)
    ⟨"", "R", ["USAGE", "SELECT", "INSERT"], "SCHEMA", "S"⟩
    ⟨"", "R", ["USAGE", "SELECT"], "SCHEMA", "S"⟩
    (fun _ => rfl) rfl rfl rfl "INSERT"
  have h2 := c5_update_diffs_privilege_sets (fun _ => true)
    ⟨"", "R", ["USAGE", "SELECT", "INSERT"], "SCHEMA", "S"⟩
    ⟨"", "R", ["USAGE", "SELECT"], "SCHEMA", "S"⟩
    (fun _ => rfl) rfl rfl rfl "USAGE"
  exact ⟨h1.2.trans (by decide), h2.1.trans (by decide)⟩

lemma systemPrivilegeUpdate_grant_failure_cases (ok : SqlStmt → Bool)
    (plan state : systemPrivilegeModel) :
    (∀ s ∈ (systemPrivilegeUpdate ok plan state).trace,
      isGrantStmt s = true → ok s = true) ∨
    ((systemPrivilegeUpdate ok plan state).persisted = none ∧
      (systemPrivilegeUpdate ok plan state).errors ≠ []) := by
  simp only [systemPrivilegeUpdate]
  split
  · split
    · exact Or.inr ⟨rfl, by simp⟩
    · split
      · exact Or.inr ⟨rfl, by simp⟩
      · rename_i hgnt
        simp only [Bool.not_eq_true, Bool.not_eq_false] at hgnt
        refine Or.inl ?_
        intro s hs hgr
        rcases List.mem_cons.mp hs with rfl | hs'
        · simp [isGrantStmt] at hgr
        · rw [List.mem_singleton.mp hs']
          simpa using hgnt
  · split
    · split
      · exact Or.inr ⟨rfl, by simp⟩
      · split
        · exact Or.inr ⟨rfl, by simp⟩
        · rename_i hgnt
          simp only [Bool.not_eq_true, Bool.not_eq_false] at hgnt
          refine Or.inl ?_
          intro s hs hgr
          rcases List.mem_cons.mp hs with rfl | hs'
          · simp [isGrantStmt] at hgr
          · rw [List.mem_singleton.mp hs']
            simpa using hgnt
    · refine Or.inl ?_
      intro s hs _
      simp at hs

lemma roleGrantUpdate_grant_failure_cases (ok : SqlStmt → Bool)
    (plan state : roleGrantModel) :
    (∀ s ∈ (roleGrantUpdate ok plan state).trace,
      isGrantStmt s = true → ok s = true) ∨
    ((roleGrantUpdate ok plan state).persisted = none ∧
      (roleGrantUpdate ok plan state).errors ≠ []) := by
  simp only [roleGrantUpdate]
  split
  · split
    · exact Or.inr ⟨rfl, by simp⟩
    · split
      · exact Or.inr ⟨rfl, by simp⟩
      · rename_i hgnt
        simp only [Bool.not_eq_true, Bool.not_eq_false] at hgnt
        refine Or.inl ?_
        intro s hs hgr
        rcases List.mem_cons.mp hs with rfl | hs'
        · simp [isGrantStmt] at hgr
        · rw [List.mem_singleton.mp hs']
          simpa using hgnt
  · split
    · split
      · exact Or.inr ⟨rfl, by simp⟩
      · split
        · exact Or.inr ⟨rfl, by simp⟩
        · rename_i hgnt
          simp only [Bool.not_eq_true, Bool.not_eq_false] at hgnt
          refine Or.inl ?_
          intro s hs hgr
          rcases List.mem_cons.mp hs with rfl | hs'
          · simp [isGrantStmt] at hgr
          · rw [List.mem_singleton.mp hs']
            simpa using hgnt
    · refine Or.inl ?_
      intro s hs _
      simp at hs

lemma objectPrivilegeUpdate_grant_failure_cases (ok : SqlStmt → Bool)
    (plan state : objectPrivilegeModel) :
    (∀ s ∈ (objectPrivilegeUpdate ok plan state).trace,
      isGrantStmt s = true → ok s = true) ∨
    ((objectPrivilegeUpdate ok plan state).persisted = none ∧
      (objectPrivilegeUpdate ok plan state).errors ≠ []) := by
  simp only [objectPrivilegeUpdate]
  split
  · split
    · rename_i hrun
      refine Or.inl ?_
      intro s hs hgr
      rcases List.mem_append.mp hs with hrv | hgrant
      · obtain ⟨a, _, hfa⟩ := List.mem_map.mp hrv
        rw [← hfa] at hgr
        simp [isGrantStmt] at hgr
      · exact runStmtsAbort_mem_ok ok _ hrun s hgrant
    · exact Or.inr ⟨rfl, by simp⟩
  · split
    · rename_i hrun
      refine Or.inl ?_
      intro s hs hgr
      rcases List.mem_append.mp hs with hrv | hgrant
      · obtain ⟨a, _, hfa⟩ := List.mem_map.mp hrv
        rw [← hfa] at hgr
        simp [isGrantStmt] at hgr
      · exact runStmtsAbort_mem_ok ok _ hrun s hgrant
    · exact Or.inr ⟨rfl, by simp⟩

/-- Claim C8: in every grant-resource Update (system privilege, role
grant, object privilege), if any issued GRANT statement failed, the
operation reports an error and persists nothing — state is written only
when every grant it attempted succeeded. -/
theorem c8_failed_grant_never_persists (ok : SqlStmt → Bool) :
    (∀ plan state : systemPrivilegeModel,
      (∃ s ∈ (systemPrivilegeUpdate ok plan state).trace,
        isGrantStmt s = true ∧ ok s = false) →
      (systemPrivilegeUpdate ok plan state).persisted = none ∧
      (systemPrivilegeUpdate ok plan state).errors ≠ []) ∧
    (∀ plan state : roleGrantModel,
      (∃ s ∈ (roleGrantUpdate ok plan state).trace,
        isGrantStmt s = true ∧ ok s = false) →
      (roleGrantUpdate ok plan state).persisted = none ∧
      (roleGrantUpdate ok plan state).errors ≠ []) ∧
    (∀ plan state : objectPrivilegeModel,
      (∃ s ∈ (objectPrivilegeUpdate ok plan state).trace,
        isGrantStmt s = true ∧ ok s = false) →
      (objectPrivilegeUpdate ok plan state).persisted = none ∧
      (objectPrivilegeUpdate ok plan state).errors ≠ []) := by
  refine ⟨?_, ?_, ?_⟩
  · intro plan state h
    rcases systemPrivilegeUpdate_grant_failure_cases ok plan state with hall | hdone
    · obtain ⟨s, hs, hgr, hf⟩ := h
      rw [hall s hs hgr] at hf
      exact absurd hf (by simp)
    · exact hdone
  · intro plan state h
    rcases roleGrantUpdate_grant_failure_cases ok plan state with hall | hdone
    · obtain ⟨s, hs, hgr, hf⟩ := h
      rw [hall s hs hgr] at hf
      exact absurd hf (by simp)
    · exact hdone
  · intro plan state h
    rcases objectPrivilegeUpdate_grant_failure_cases ok plan state with hall | hdone
    · obtain ⟨s, hs, hgr, hf⟩ := h
      rw [hall s hs hgr] at hf
      exact absurd hf (by simp)
    · exact hdone

/-- Witness for C8 under an oracle failing every GRANT (revokes succeed):
no update persists state. -/
theorem c8_witness :
    (systemPrivilegeUpdate (fun s => !isGrantStmt s)
      ⟨"", "U2", "CREATE SESSION", none⟩
      ⟨"", "U1", "CREATE SESSION", none⟩).persisted = none ∧
    (roleGrantUpdate (fun s => !isGrantStmt s)
      ⟨"", "R2", "G", none⟩ ⟨"", "R1", "G", none⟩).persisted = none ∧
    (objectPrivilegeUpdate (fun s => !isGrantStmt s)
      ⟨"", "R", ["SELECT"], "SCHEMA", "B"⟩
      ⟨"", "R", ["SELECT"], "SCHEMA", "A"⟩).persisted = none := by
  have h := c8_failed_grant_never_persists (fun s => !isGrantStmt s)
  exact ⟨(h.1 _ _ (by decide)).1, (h.2.1 _ _ (by decide)).1,
    (h.2.2 _ _ (by decide)).1⟩

end Exasol
